import Mathlib

/-!
Verification of the AutoBlog AI backend orchestration core against its
design spec.  The Python sources under backend/ are shallowly embedded:
pure control flow becomes Lean functions, awaited collaborator calls
(run_campaign_async, httpx fetches, BeautifulSoup loc extraction,
playwright fetch, the Gemini model) become oracle parameters describing
their outcome, and the side effects of a run (ws_manager.send,
RUN_TASKS.pop) become an explicit trace of actions so that ordering
claims can be stated.
-/

namespace AutoBlog

/-! ## Data model: log events and run side effects (main.py) -/

/-- Log levels used by the backend ("level" field of the JSON log records). -/
inductive Level
  | INFO
  | SUCCESS
  | ERROR
deriving DecidableEq, Repr

/-- A log event as sent over ws_manager.send in main.py:
the dict with keys ts, level, text, addressed to one run id. -/
structure LogEvent where
  runId : String
  ts : Nat
  level : Level
  text : String
deriving DecidableEq, Repr

/-- Outcome of awaiting run_campaign_async(cfg, run_id): either it returns
normally or it raises an Exception whose str() is msg. -/
inductive Outcome
  | ok
  | exc (msg : String)
deriving DecidableEq, Repr

/-- One observable side effect of _background_run, in program order:
either a ws_manager.send of an event for a run id, or the registry
cleanup RUN_TASKS.pop(run_id, None). -/
inductive Action
  | send (ev : LogEvent)
  | popRegistry (id : String)
deriving DecidableEq, Repr

/-- Embedding of _background_run (main.py lines 42-52).  The body is
try: await run_campaign_async(cfg, run_id)
except Exception as e: send ERROR "Background run error: " followed by str(e)
finally: send INFO "Run finished"; RUN_TASKS.pop(run_id, None).
The awaited call is abstracted by its Outcome; the result is the ordered
trace of sends and the registry pop.  The except clause catches every
Exception, so the function always runs to the end of the finally block:
this is why the return type is a plain trace, not an Except. -/
def _background_run (runCampaignAsync : Outcome) (ts : Nat) (run_id : String) : List Action :=
  (match runCampaignAsync with
    | .ok => []
    | .exc e => [Action.send ⟨run_id, ts, Level.ERROR, "Background run error: " ++ e⟩])
  ++ [Action.send ⟨run_id, ts, Level.INFO, "Run finished"⟩,
      Action.popRegistry run_id]

/-- Does the action send the terminal INFO "Run finished" event? -/
def isRunFinishedSend (a : Action) : Bool :=
  match a with
  | .send ev => ev.level == Level.INFO && ev.text == "Run finished"
  | _ => false

/-- Does the action send an ERROR-level event? -/
def isErrorSend (a : Action) : Bool :=
  match a with
  | .send ev => ev.level == Level.ERROR
  | _ => false

/-! ## Worker generator (worker/worker.py) -/

/-- Embedding of run_campaign_worker (worker/worker.py).  The awaited
fetch_with_playwright call is abstracted by its outcome: ok with the html,
or error with str(e) of the raised Exception.  The generator yields log
lines in order; the except clause converts the exception into one
"[ERROR] " line and the trailing "[INFO] Worker complete" is always
yielded. -/
def run_campaign_worker (fetch_with_playwright : Except String String) : List String :=
  ["[INFO] Starting worker..."]
  ++ (match fetch_with_playwright with
      | .ok _ => ["[SUCCESS] Fetched page"]
      | .error e => ["[ERROR] " ++ e])
  ++ ["[INFO] Worker complete"]

/-! ## Start endpoint (main.py) -/

/-- The JSON body returned by the run-campaign-async endpoint. -/
structure StartResponse where
  success : Bool
  run_id : String
deriving DecidableEq, Repr

/-- The asyncio.Task stored in RUN_TASKS: a spawned, not yet awaited,
background run carrying its configuration and run id. -/
structure PyTask (α : Type) where
  cfg : α
  run_id : String
deriving DecidableEq, Repr

/-- Embedding of run_campaign_async_endpoint (main.py lines 29-40).
run_id is the freshly generated uuid4 string; RUN_TASKS is the module
level dict, modelled as a map from run id to stored task.
asyncio.create_task spawns the background run without awaiting it, so the
endpoint only registers the task and returns; the third component is the
list of run actions the endpoint itself performs before returning, which
is empty: no stage of the spawned run is executed by the endpoint. -/
def run_campaign_async_endpoint {α : Type} (run_id : String) (cfg : α)
    (RUN_TASKS : String → Option (PyTask α)) :
    StartResponse × (String → Option (PyTask α)) × List Action :=
  (⟨true, run_id⟩,
   fun k => if k = run_id then some ⟨cfg, run_id⟩ else RUN_TASKS k,
   [])

/-- Embedding of RUN_TASKS.pop(run_id, None) (main.py line 52): Python
dict.pop with a default removes the entry when present and returns the
default when absent; it never raises.  The dict is modelled as a map from
key to optional value. -/
def RUN_TASKS_pop {τ : Type} (m : String → Option τ) (k : String) : String → Option τ :=
  fun q => if q = k then none else m q

/-! ## Python exceptions surfaced by the embedded code -/

/-- The exceptions the embedded routes can raise: KeyError from a missing
dict key, TypeError from passing None where a sized object is required. -/
inductive PyError
  | keyError (key : String)
  | typeError (msg : String)
deriving DecidableEq, Repr

/-! ## Content discovery route (routes/source.py) -/

/-- The record produced by a discovery strategy: the dict with keys url,
source and title returned, for example, by discover_latest_from_sitemap. -/
structure DiscoveryResult where
  url : String
  source : String
  title : String
deriving DecidableEq, Repr

/-- The JSON body returned by the test-source route: either the first
strategy hit, tagged with the method that produced it and spread over the
result record, or the error object when all strategies came back empty. -/
inductive SourceResponse
  | found (method : String) (r : DiscoveryResult)
  | failedToDetect
deriving DecidableEq, Repr

/-- Embedding of test_source (routes/source.py lines 8-28).  The three
strategies are oracles from the requested url to an optional result (a
Python None or empty dict is falsy, hence none).  Besides the response,
the embedding returns the list of strategies actually awaited, in call
order, so that claims about later strategies not being invoked can be
stated. -/
def test_source (discover_latest_from_sitemap discover_from_rss discover_from_html :
    String → Option DiscoveryResult) (url : String) : SourceResponse × List String :=
  match discover_latest_from_sitemap url with
  | some r => (.found "sitemap" r, ["sitemap"])
  | none =>
    match discover_from_rss url with
    | some r => (.found "rss" r, ["sitemap", "rss"])
    | none =>
      match discover_from_html url with
      | some r => (.found "html" r, ["sitemap", "rss", "html"])
      | none => (.failedToDetect, ["sitemap", "rss", "html"])

/-! ## Sitemap discovery (scraper/sitemap.py)

fetch(url) returns the page text on HTTP 200 and None otherwise, modelled
as an oracle String to Option String.  BeautifulSoup loc extraction is
modelled by a second oracle giving, for a document text, the list of text
contents of its loc tags in document order. -/

/-- Does the reversed character list rcs start with the reverse of kw,
that is, does the unreversed list end with kw?  Structural on lists so
that concrete instances evaluate inside proofs. -/
def revStartsWith (rcs : List Char) (kw : String) : Bool :=
  List.isPrefixOf kw.data.reverse rcs

/-- Python str.strip(): remove leading and trailing whitespace. -/
def pyStrip (s : String) : String :=
  String.mk (((s.data.dropWhile Char.isWhitespace).reverse.dropWhile Char.isWhitespace).reverse)

/-- Semantics of POST_PATTERN.search on a stripped loc string together
with the extraction int(m.group(3) or 1).  POST_PATTERN is the regex
with groups (post|article|news)(-sitemap)?(digits).xml anchored at the
end of the string.  A search match exists exactly when the string ends
with keyword, optional -sitemap, a possibly empty digit run, then .xml;
the digit run is group 3 (the keywords and -sitemap end in letters, so
the digit run of any match is the maximal trailing digit run before
.xml).  Group 3 empty yields 1, otherwise its decimal value.  The string
is processed in reverse so every step is structural. -/
def POST_PATTERN_num (loc : String) : Option Nat :=
  let rcs := loc.data.reverse
  if revStartsWith rcs ".xml" then
    let afterXml := rcs.drop 4
    let ds := (afterXml.takeWhile Char.isDigit).reverse
    let rbase := afterXml.dropWhile Char.isDigit
    if revStartsWith rbase "post" || revStartsWith rbase "article"
        || revStartsWith rbase "news" || revStartsWith rbase "post-sitemap"
        || revStartsWith rbase "article-sitemap" || revStartsWith rbase "news-sitemap" then
      some (if ds.isEmpty then 1 else ds.foldl (fun a c => a * 10 + (c.toNat - 48)) 0)
    else none
  else none

/-- The candidates list built by the loop in discover_latest_from_sitemap:
for each loc tag text, strip it and keep (num, loc) when POST_PATTERN
matches. -/
def candidatesOf (locs : String → List String) (txt : String) : List (Nat × String) :=
  (locs txt).filterMap (fun t =>
    (POST_PATTERN_num (pyStrip t)).map (fun n => (n, pyStrip t)))

/-- Strict order on candidates as Python compares (int, str) tuples:
first component numerically, ties by the byte order on the string. -/
def candLt (a b : Nat × String) : Bool :=
  a.1 < b.1 || (a.1 == b.1 && decide (a.2 < b.2))

/-- Models candidates.sort(reverse=True) followed by candidates[0] on a
nonempty candidates list: the maximum candidate under the tuple order. -/
def maxCandidate (c : Nat × String) (cs : List (Nat × String)) : Nat × String :=
  cs.foldl (fun best x => if candLt best x then x else best) c

/-- Python str.title() restricted to the character classes the code meets:
the first cased character of every run of cased characters is uppercased
and the remaining cased characters are lowercased; uncased characters are
kept and end the run.  The boolean argument records whether the previous
character was cased. -/
def pyTitleGo : Bool → List Char → List Char
  | _, [] => []
  | prevCased, c :: cs =>
    if c.isAlpha then
      (if prevCased then c.toLower else c.toUpper) :: pyTitleGo true cs
    else
      c :: pyTitleGo false cs

/-- Python str.title() on a string. -/
def pyTitle (s : String) : String :=
  String.mk (pyTitleGo false s.data)

/-- Python str.split("/"): split at every slash, keeping empty pieces,
on character lists; the result list is never empty. -/
def pySplitSlash (cs : List Char) : List (List Char) :=
  match cs with
  | [] => [[]]
  | c :: rest =>
    match pySplitSlash rest with
    | [] => [[c]]
    | h :: t => if c = '/' then [] :: h :: t else (c :: h) :: t

/-- Python str.replace("-", " ") on a character list. -/
def pyReplaceDash (cs : List Char) : List Char :=
  cs.map (fun c => if c = '-' then ' ' else c)

/-- The title the source derives on sitemap.py line 53:
latest_post_url.split("/")[-1].replace("-", " ").title(). -/
def titleOf (latest_post_url : String) : String :=
  pyTitle (String.mk (pyReplaceDash ((pySplitSlash latest_post_url.data).getLastD [])))

/-- Embedding of discover_latest_from_sitemap (scraper/sitemap.py lines
14-54).  Control flow follows the source line by line: the first fetch is
guarded by a truthiness test (None or empty text returns None); a loc
candidates list is built with POST_PATTERN; the highest (num, loc) pair
is chosen by sort(reverse=True) and indexing 0; the chosen sitemap is
fetched again, but this second fetch result is passed to BeautifulSoup
unchecked, and BeautifulSoup(None, "xml") raises
TypeError: object of type NoneType has no len(); finally the last loc of
the chosen sitemap becomes the article url, with the title derived from
its final path segment. -/
def discover_latest_from_sitemap (fetch : String → Option String)
    (locs : String → List String) (url : String) :
    Except PyError (Option DiscoveryResult) :=
  match fetch url with
  | none => .ok none
  | some txt =>
    if txt = "" then .ok none
    else
      match candidatesOf locs txt with
      | [] => .ok none
      | c :: cs =>
        let latest_url := (maxCandidate c cs).2
        match fetch latest_url with
        | none => .error (.typeError "object of type NoneType has no len()")
        | some sitemap_xml =>
          match locs sitemap_xml with
          | [] => .ok none
          | u :: us =>
            let latest_post_url := pyStrip ((u :: us).getLastD "")
            .ok (some
              { url := latest_post_url
                source := latest_url
                title := titleOf latest_post_url })

/-! ## AI rewrite (utils/logger.py) -/

/-- The Gemini prompt built by rewrite_content_gemini from the text and
the word budget. -/
def geminiPrompt (text : String) (max_words : Nat) : String :=
  "\nRewrite the following article in simple English, max "
    ++ toString max_words
    ++ " words.\nAdd 3-5 bullet points summary at top.\nKeep HTML clean.\n\n"
    ++ text ++ "\n"

/-- Embedding of rewrite_content_gemini (utils/logger.py lines 12-28).
GEN_API_KEY is os.getenv of the credential: none when the variable is
unset; the guard in the source is Python truthiness, so an empty string
is also treated as missing.  generate abstracts
genai.GenerativeModel("gemini-pro").generate_content followed by .text. -/
def rewrite_content_gemini (GEN_API_KEY : Option String) (generate : String → String)
    (text : String) (max_words : Nat) : String :=
  match GEN_API_KEY with
  | none => text
  | some key => if key = "" then text else generate (geminiPrompt text max_words)

/-! ## CMS verification route (routes/cms.py) -/

/-- An httpx response as the route consumes it: the status code, the body
text, and the result of calling .json() on it, which raises when the body
is not valid JSON (the parsed value is kept opaque as its serialized
form). -/
structure HttpResp where
  status : Nat
  text : String
  json : Except String String
deriving Repr

/-- The JSON body the verify-connection route returns: success True with
the categories payload, or success False with a message. -/
inductive CmsResult
  | okCats (categories : String)
  | fail (message : String)
deriving DecidableEq, Repr

/-- Embedding of verify_connection (routes/cms.py lines 6-25).  The three
payload key reads happen before the try block, so a missing key raises
KeyError out of the route.  http abstracts the awaited GET on the
categories endpoint with basic auth: either a response or a raised
exception whose str() is the message.  Everything from the GET to the
returns is inside try, so a connection error or a .json() failure is
caught and becomes success False with str(e). -/
def verify_connection (http : String → String × String → Except String HttpResp)
    (payload : List (String × String)) : Except PyError CmsResult :=
  match payload.lookup "url" with
  | none => .error (.keyError "url")
  | some base_url =>
    match payload.lookup "username" with
    | none => .error (.keyError "username")
    | some user =>
      match payload.lookup "password" with
      | none => .error (.keyError "password")
      | some app_password =>
        .ok (match http (base_url ++ "/wp-json/wp/v2/categories") (user, app_password) with
          | .error e => .fail e
          | .ok r =>
            if r.status = 200 then
              match r.json with
              | .ok cats => .okCats cats
              | .error e => .fail e
            else .fail r.text)

/-! ## Log broadcast hub (app/ws_manager.py, absent from the sources)

main.py imports ws_manager from app.ws_manager, a file that is not among
the source files; only its call sites are.  The hub is therefore modelled
from the spec. -/

/-- A subscriber handle: one connected websocket for one run id. -/
structure Sub where
  sid : Nat
deriving DecidableEq, Repr

/-- Modelled from the spec: the state of ws_manager, the Log Broadcast
Hub, whose implementation file app/ws_manager.py is missing from the
sources.  Section 4.2: the hub maps a run identifier to the set of
currently connected subscriber channels, and closeRun marks a run's
channel set as closed; closed-ness must be remembered so that later
subscriptions can be told the run finished. -/
structure WsManager where
  channels : String → Option (List Sub)
  closed : String → Bool

/-- The current subscriber set for a run id (empty when no entry). -/
def WsManager.subsOf (h : WsManager) (id : String) : List Sub :=
  (h.channels id).getD []

/-- Modelled from the spec: closeRun(id) of section 4.2, "marks the run's
channel set as closed, delivers one final terminal marker event to every
current subscriber, then releases the channel-set entry."  Returns the
new hub state and the (subscriber, event) deliveries performed. -/
def WsManager.closeRun (h : WsManager) (id : String) (marker : LogEvent) :
    WsManager × List (Sub × LogEvent) :=
  (⟨fun q => if q = id then none else h.channels q,
    fun q => q == id || h.closed q⟩,
   (h.subsOf id).map (fun s => (s, marker)))

/-- Modelled from the spec: subscribe(id) of section 4.2, "Subscriptions
created after closeRun for the same id immediately receive the terminal
marker and no further events, rather than waiting forever."  On an open
run the subscriber is added to the channel set and receives nothing yet.
Returns the new hub state and the events delivered immediately to the new
subscriber. -/
def WsManager.subscribe (h : WsManager) (id : String) (s : Sub) (marker : LogEvent) :
    WsManager × List LogEvent :=
  if h.closed id then (h, [marker])
  else
    (⟨fun q => if q = id then some (s :: h.subsOf id) else h.channels q, h.closed⟩, [])

/-- Modelled from the spec: publish(id, event) of section 4.2, delivering
the event to every subscriber currently registered for the id; a closed
run has no channel set left, so nothing is delivered. -/
def WsManager.publish (h : WsManager) (id : String) (ev : LogEvent) :
    List (Sub × LogEvent) :=
  if h.closed id then [] else (h.subsOf id).map (fun s => (s, ev))

/-! ## Helper lemmas: the candidate chosen by sort(reverse=True)[0] -/

theorem maxCandidate_cons (c x : Nat × String) (xs : List (Nat × String)) :
    maxCandidate c (x :: xs) = maxCandidate (if candLt c x then x else c) xs := rfl

theorem maxCandidate_mem (cs : List (Nat × String)) :
    ∀ c, maxCandidate c cs ∈ c :: cs := by
  induction cs with
  | nil => intro c; simp [maxCandidate]
  | cons x xs ih =>
    intro c
    rw [maxCandidate_cons]
    rcases List.mem_cons.1 (ih (if candLt c x then x else c)) with h1 | h1
    · rw [h1]
      split <;> simp
    · simp [List.mem_cons, h1]

theorem candLt_false_ge {a b : Nat × String} (h : candLt a b = false) : b.1 ≤ a.1 := by
  simp only [candLt, Bool.or_eq_false_iff, decide_eq_false_iff_not] at h
  omega

theorem candLt_true_le {a b : Nat × String} (h : candLt a b = true) : a.1 ≤ b.1 := by
  simp only [candLt, Bool.or_eq_true, decide_eq_true_eq, Bool.and_eq_true, beq_iff_eq] at h
  omega

theorem maxCandidate_fst_le (cs : List (Nat × String)) :
    ∀ c, ∀ p ∈ c :: cs, p.1 ≤ (maxCandidate c cs).1 := by
  induction cs with
  | nil => intro c p hp; simp at hp; simp [maxCandidate, hp]
  | cons x xs ih =>
    intro c p hp
    rw [maxCandidate_cons]
    have hcx : c.1 ≤ (if candLt c x then x else c).1 ∧ x.1 ≤ (if candLt c x then x else c).1 := by
      by_cases h : candLt c x = true
      · simp only [h, if_pos]
        exact ⟨candLt_true_le h, le_refl _⟩
      · rw [Bool.not_eq_true] at h
        simp only [h, Bool.false_eq_true, if_neg, not_false_iff]
        exact ⟨le_refl _, candLt_false_ge h⟩
    have hmax := ih (if candLt c x then x else c) (if candLt c x then x else c)
      (List.mem_cons_self _ _)
    rcases List.mem_cons.1 hp with h1 | h1
    · exact le_trans (h1 ▸ hcx.1) hmax
    · rcases List.mem_cons.1 h1 with h2 | h2
      · exact le_trans (h2 ▸ hcx.2) hmax
      · exact ih (if candLt c x then x else c) p (List.mem_cons_of_mem _ h2)

/-! ## Claim theorems -/

/-- C1: for every outcome of the awaited run (normal return or raised
exception) and every run id, _background_run emits exactly one terminal
INFO "Run finished" event for that run id; the very last action of the
trace is the removal of the run from RUN_TASKS, and the terminal send is
the action immediately before it, hence the last event published for the
run before its registry entry is removed. -/
theorem background_run_single_terminal_finished (o : Outcome) (ts : Nat) (rid : String) :
    (_background_run o ts rid).filter isRunFinishedSend
      = [Action.send ⟨rid, ts, Level.INFO, "Run finished"⟩]
    ∧ (_background_run o ts rid).getLast? = some (Action.popRegistry rid)
    ∧ (_background_run o ts rid).dropLast.getLast?
      = some (Action.send ⟨rid, ts, Level.INFO, "Run finished"⟩) := by
  cases o with
  | ok => exact ⟨rfl, rfl, rfl⟩
  | exc e => exact ⟨rfl, rfl, rfl⟩

/-- C2: when the awaited run raises an exception whose description is e,
_background_run converts it into exactly one ERROR-level event, whose
text is the string "Background run error: " followed by e and hence
contains the failure description; likewise the worker generator turns a
raised fetch exception into its single "[ERROR] " line and still yields
its closing line.  Both embeddings return their complete traces: the
exception is consumed at the run boundary and never propagates. -/
theorem stage_exception_single_error_event (e : String) (ts : Nat) (rid : String) :
    (_background_run (.exc e) ts rid).filter isErrorSend
      = [Action.send ⟨rid, ts, Level.ERROR, "Background run error: " ++ e⟩]
    ∧ run_campaign_worker (.error e)
      = ["[INFO] Starting worker...", "[ERROR] " ++ e, "[INFO] Worker complete"] :=
  ⟨rfl, rfl⟩

/-- C3: the start endpoint returns success True together with the run id
it allocated, registers the spawned task under that id leaving every
other registry entry unchanged, and performs no run action before
returning: no part of the stage execution is awaited. -/
theorem start_endpoint_registers_and_returns_immediately {α : Type} (rid : String)
    (cfg : α) (tasks : String → Option (PyTask α)) :
    (run_campaign_async_endpoint rid cfg tasks).1.success = true
    ∧ (run_campaign_async_endpoint rid cfg tasks).1.run_id = rid
    ∧ (run_campaign_async_endpoint rid cfg tasks).2.1 rid = some ⟨cfg, rid⟩
    ∧ (∀ k, k ≠ rid → (run_campaign_async_endpoint rid cfg tasks).2.1 k = tasks k)
    ∧ (run_campaign_async_endpoint rid cfg tasks).2.2 = [] := by
  refine ⟨rfl, rfl, ?_, ?_, rfl⟩
  · simp [run_campaign_async_endpoint]
  · intro k hk
    simp [run_campaign_async_endpoint, hk]

/-- Witness for C3 at a concrete fresh id, configuration and registry. -/
theorem start_endpoint_registers_and_returns_immediately_witness :
    (run_campaign_async_endpoint "run-1" 0 (fun _ => (none : Option (PyTask Nat)))).1.success = true
    ∧ (run_campaign_async_endpoint "run-1" 0 (fun _ => (none : Option (PyTask Nat)))).1.run_id = "run-1"
    ∧ (run_campaign_async_endpoint "run-1" 0 (fun _ => (none : Option (PyTask Nat)))).2.1 "run-1"
      = some ⟨0, "run-1"⟩
    ∧ (run_campaign_async_endpoint "run-1" 0 (fun _ => (none : Option (PyTask Nat)))).2.1 "other"
      = none
    ∧ (run_campaign_async_endpoint "run-1" 0 (fun _ => (none : Option (PyTask Nat)))).2.2 = [] := by
  have h := start_endpoint_registers_and_returns_immediately "run-1" 0
    (fun _ => (none : Option (PyTask Nat)))
  exact ⟨h.1, h.2.1, h.2.2.1, h.2.2.2.1 "other" (by decide), h.2.2.2.2⟩

/-- C4: the test-source route tries sitemap, then rss, then html in that
order, returns the first non-empty result tagged with the method that
produced it, with the invocation trace showing that no later strategy was
awaited, and returns the error object exactly when all three strategies
came back empty. -/
theorem test_source_first_nonempty_wins (sm rss html : String → Option DiscoveryResult)
    (url : String) :
    (∀ r, sm url = some r →
      test_source sm rss html url = (.found "sitemap" r, ["sitemap"]))
    ∧ (∀ r, sm url = none → rss url = some r →
      test_source sm rss html url = (.found "rss" r, ["sitemap", "rss"]))
    ∧ (∀ r, sm url = none → rss url = none → html url = some r →
      test_source sm rss html url = (.found "html" r, ["sitemap", "rss", "html"]))
    ∧ (sm url = none → rss url = none → html url = none →
      test_source sm rss html url = (.failedToDetect, ["sitemap", "rss", "html"])) := by
  refine ⟨?_, ?_, ?_, ?_⟩
  · intro r h1; simp [test_source, h1]
  · intro r h1 h2; simp [test_source, h1, h2]
  · intro r h1 h2 h3; simp [test_source, h1, h2, h3]
  · intro h1 h2 h3; simp [test_source, h1, h2, h3]

/-- Witness for C4 at concrete strategies: the sitemap strategy hits, so
the response is tagged sitemap and the later strategies are not awaited. -/
theorem test_source_first_nonempty_wins_witness :
    test_source (fun _ => some ⟨"https://s.com/a", "https://s.com/post-sitemap.xml", "A"⟩)
        (fun _ => none) (fun _ => none) "https://s.com"
      = (.found "sitemap" ⟨"https://s.com/a", "https://s.com/post-sitemap.xml", "A"⟩,
         ["sitemap"]) :=
  (test_source_first_nonempty_wins
      (fun _ => some ⟨"https://s.com/a", "https://s.com/post-sitemap.xml", "A"⟩)
      (fun _ => none) (fun _ => none) "https://s.com").1
    ⟨"https://s.com/a", "https://s.com/post-sitemap.xml", "A"⟩ rfl

/-- C5: the claimed totality of sitemap discovery fails on the code.  A
source whose sitemap index names one post sitemap whose own fetch comes
back without content (non-200) drives the unchecked second fetch result
into BeautifulSoup, which raises TypeError; the discovery neither returns
a record nor a not-found value. -/
theorem discover_sitemap_raises_on_failed_second_fetch :
    discover_latest_from_sitemap
      (fun u => if u = "https://ex.com/sitemap_index.xml" then some "IDX" else none)
      (fun t => if t = "IDX" then ["https://ex.com/post-sitemap.xml"] else [])
      "https://ex.com/sitemap_index.xml"
      = .error (.typeError "object of type NoneType has no len()") := by
  rfl

/-- C6: when the generative credential is absent (the environment
variable is unset, or set to the empty string, which the source guard
treats as missing by Python truthiness), rewrite_content_gemini returns
the input text unchanged for every text, word budget and model
behaviour. -/
theorem rewrite_identity_when_credential_absent (generate : String → String)
    (text : String) (max_words : Nat) (GEN_API_KEY : Option String)
    (h : GEN_API_KEY = none ∨ GEN_API_KEY = some "") :
    rewrite_content_gemini GEN_API_KEY generate text max_words = text := by
  rcases h with h | h <;> simp [h, rewrite_content_gemini]

/-- Witness for C6: with the credential unset, a concrete rewrite call
returns its input unchanged. -/
theorem rewrite_identity_when_credential_absent_witness :
    rewrite_content_gemini none (fun p => p ++ "!") "raw article text" 800
      = "raw article text" :=
  rewrite_identity_when_credential_absent (fun p => p ++ "!") "raw article text" 800
    none (Or.inl rfl)

/-- C7: a subscriber that attaches to a run id after closeRun has marked
that run closed immediately receives exactly the terminal marker, and a
subsequent publish for that run id delivers nothing at all, so the late
subscriber receives no further events rather than waiting forever. -/
theorem late_subscriber_gets_exactly_terminal_marker (h0 : WsManager) (id : String)
    (marker : LogEvent) (s : Sub) (ev : LogEvent) :
    ((h0.closeRun id marker).1).closed id = true
    ∧ (((h0.closeRun id marker).1).subscribe id s marker).2 = [marker]
    ∧ ((((h0.closeRun id marker).1).subscribe id s marker).1).publish id ev = [] := by
  refine ⟨by simp [WsManager.closeRun], ?_, ?_⟩
  · simp [WsManager.closeRun, WsManager.subscribe]
  · simp [WsManager.closeRun, WsManager.subscribe, WsManager.publish]

/-- C8 counterexample: the claim quantifies over every request payload
and rules out unhandled exceptions, but the three payload key reads occur
before the try block, so the empty payload raises KeyError out of the
route; and a 200 response whose body does not parse as JSON yields
success False, not success True with the category list. -/
theorem verify_connection_counterexample :
    verify_connection (fun _ _ => .error "connection refused") []
      = .error (.keyError "url")
    ∧ verify_connection (fun _ _ => .ok ⟨200, "<html>", .error "Expecting value"⟩)
        [("url", "https://w.example"), ("username", "u"), ("password", "p")]
      = .ok (.fail "Expecting value") :=
  ⟨rfl, rfl⟩

/-- C8 amended: for every payload that contains the url, username and
password keys, the route never propagates an exception: it returns
success True with the category list when the endpoint answers 200 and the
body parses as JSON, and success False with a human-readable message in
every other case, including a raised connection error, a non-200 status
and an unparseable 200 body. -/
theorem verify_connection_total_with_required_keys
    (http : String → String × String → Except String HttpResp)
    (payload : List (String × String)) (u un pw : String)
    (h1 : payload.lookup "url" = some u)
    (h2 : payload.lookup "username" = some un)
    (h3 : payload.lookup "password" = some pw) :
    (∃ res, verify_connection http payload = .ok res)
    ∧ (∀ e, http (u ++ "/wp-json/wp/v2/categories") (un, pw) = .error e →
        verify_connection http payload = .ok (.fail e))
    ∧ (∀ r cats, http (u ++ "/wp-json/wp/v2/categories") (un, pw) = .ok r →
        r.status = 200 → r.json = .ok cats →
        verify_connection http payload = .ok (.okCats cats))
    ∧ (∀ r e, http (u ++ "/wp-json/wp/v2/categories") (un, pw) = .ok r →
        r.status = 200 → r.json = .error e →
        verify_connection http payload = .ok (.fail e))
    ∧ (∀ r, http (u ++ "/wp-json/wp/v2/categories") (un, pw) = .ok r →
        r.status ≠ 200 → verify_connection http payload = .ok (.fail r.text)) := by
  refine ⟨?_, ?_, ?_, ?_, ?_⟩
  · rcases hh : http (u ++ "/wp-json/wp/v2/categories") (un, pw) with e | r
    · exact ⟨.fail e, by simp [verify_connection, h1, h2, h3, hh]⟩
    · by_cases hs : r.status = 200
      · rcases hj : r.json with e | cats
        · exact ⟨.fail e, by simp [verify_connection, h1, h2, h3, hh, hs, hj]⟩
        · exact ⟨.okCats cats, by simp [verify_connection, h1, h2, h3, hh, hs, hj]⟩
      · exact ⟨.fail r.text, by simp [verify_connection, h1, h2, h3, hh, hs]⟩
  · intro e hh; simp [verify_connection, h1, h2, h3, hh]
  · intro r cats hh hs hj; simp [verify_connection, h1, h2, h3, hh, hs, hj]
  · intro r e hh hs hj; simp [verify_connection, h1, h2, h3, hh, hs, hj]
  · intro r hh hs; simp [verify_connection, h1, h2, h3, hh, hs]

/-- Witness for the amended C8 at concrete payloads and endpoint
behaviours: a 200 answer with parsed categories yields success True with
the list, and a raised connection error yields success False with its
description. -/
theorem verify_connection_total_with_required_keys_witness :
    verify_connection (fun _ _ => .ok ⟨200, "[]", .ok "catlist"⟩)
        [("url", "https://w.example"), ("username", "u"), ("password", "p")]
      = .ok (.okCats "catlist")
    ∧ verify_connection (fun _ _ => .error "refused")
        [("url", "https://w.example"), ("username", "u"), ("password", "p")]
      = .ok (.fail "refused") :=
  ⟨(verify_connection_total_with_required_keys
        (fun _ _ => .ok ⟨200, "[]", .ok "catlist"⟩)
        [("url", "https://w.example"), ("username", "u"), ("password", "p")]
        "https://w.example" "u" "p" rfl rfl rfl).2.2.1
      ⟨200, "[]", .ok "catlist"⟩ "catlist" rfl rfl rfl,
   (verify_connection_total_with_required_keys
        (fun _ _ => .error "refused")
        [("url", "https://w.example"), ("username", "u"), ("password", "p")]
        "https://w.example" "u" "p" rfl rfl rfl).2.1
      "refused" rfl⟩

/-- C9: RUN_TASKS.pop with a default is idempotent removal: popping an
absent id leaves the registry map unchanged (and, being a total function
of the map, raises nothing), popping a present id deletes exactly that
entry while every other id keeps its binding, and popping twice equals
popping once. -/
theorem run_tasks_pop_idempotent {τ : Type} (m : String → Option τ) (k : String) :
    (m k = none → RUN_TASKS_pop m k = m)
    ∧ RUN_TASKS_pop m k k = none
    ∧ (∀ q, q ≠ k → RUN_TASKS_pop m k q = m q)
    ∧ RUN_TASKS_pop (RUN_TASKS_pop m k) k = RUN_TASKS_pop m k := by
  refine ⟨?_, by simp [RUN_TASKS_pop], ?_, ?_⟩
  · intro h
    funext q
    by_cases hq : q = k
    · rw [hq]; simp [RUN_TASKS_pop, h.symm]
    · simp [RUN_TASKS_pop, hq]
  · intro q hq; simp [RUN_TASKS_pop, hq]
  · funext q
    by_cases hq : q = k <;> simp [RUN_TASKS_pop, hq]

/-- Witness for C9 on a concrete one-entry registry: popping the absent
id b is a no-op, popping the present id a removes it and keeps nothing
else. -/
theorem run_tasks_pop_idempotent_witness :
    RUN_TASKS_pop (fun q => if q = "a" then some 1 else none) "b"
      = (fun q => if q = "a" then some (1 : Nat) else none)
    ∧ RUN_TASKS_pop (fun q => if q = "a" then some (1 : Nat) else none) "a" "a" = none
    ∧ RUN_TASKS_pop (fun q => if q = "a" then some (1 : Nat) else none) "a" "c" = none :=
  ⟨(run_tasks_pop_idempotent (fun q => if q = "a" then some 1 else none) "b").1 (by decide),
   (run_tasks_pop_idempotent (fun q => if q = "a" then some 1 else none) "a").2.1,
   (run_tasks_pop_idempotent (fun q => if q = "a" then some 1 else none) "a").2.2.1
      "c" (by decide)⟩

/-- C10: when the sitemap index fetch yields non-empty text whose loc
entries produce a non-empty candidates list, the chosen sitemap is a
candidate whose number is greatest among all candidates (ties resolved by
the tuple order the source sorts by); the chosen sitemap url becomes the
source locator, the last loc entry of its fetched document (stripped)
becomes the article url, and the title is the final path segment of that
url with hyphens replaced by spaces and title-cased. -/
theorem discover_sitemap_selects_max_numbered (fetch : String → Option String)
    (locs : String → List String) (url txt xml : String) (c : Nat × String)
    (cs : List (Nat × String))
    (h1 : fetch url = some txt) (h2 : txt ≠ "")
    (h3 : candidatesOf locs txt = c :: cs)
    (h4 : fetch (maxCandidate c cs).2 = some xml)
    (h5 : locs xml ≠ []) :
    discover_latest_from_sitemap fetch locs url
      = .ok (some
          { url := pyStrip ((locs xml).getLastD "")
            source := (maxCandidate c cs).2
            title := titleOf (pyStrip ((locs xml).getLastD "")) })
    ∧ maxCandidate c cs ∈ c :: cs
    ∧ (∀ p ∈ c :: cs, p.1 ≤ (maxCandidate c cs).1) := by
  refine ⟨?_, maxCandidate_mem cs c, maxCandidate_fst_le cs c⟩
  obtain ⟨u, us, hx⟩ := List.exists_cons_of_ne_nil h5
  simp only [discover_latest_from_sitemap, h1, h3, h4, hx, if_neg h2]

/-- Witness for C10 on concrete index and sitemap documents: among the
two matching post sitemaps the one numbered 10 is selected over the one
numbered 2, its last loc becomes the article url, and the title is
derived from the final path segment. -/
theorem discover_sitemap_selects_max_numbered_witness :
    discover_latest_from_sitemap
        (fun u => if u = "https://s.com/sitemap_index.xml" then some "IDX"
                  else if u = "https://s.com/post-sitemap10.xml" then some "SM" else none)
        (fun t => if t = "IDX" then
                    ["https://s.com/post-sitemap2.xml", "https://s.com/post-sitemap10.xml"]
                  else if t = "SM" then
                    ["https://s.com/a/first-post", "https://s.com/a/my-latest-post"]
                  else [])
        "https://s.com/sitemap_index.xml"
      = .ok (some
          { url := "https://s.com/a/my-latest-post"
            source := "https://s.com/post-sitemap10.xml"
            title := "My Latest Post" })
    ∧ (2, "https://s.com/post-sitemap2.xml").1
      ≤ (maxCandidate (2, "https://s.com/post-sitemap2.xml")
          [(10, "https://s.com/post-sitemap10.xml")]).1 := by
  have h := discover_sitemap_selects_max_numbered
    (fun u => if u = "https://s.com/sitemap_index.xml" then some "IDX"
              else if u = "https://s.com/post-sitemap10.xml" then some "SM" else none)
    (fun t => if t = "IDX" then
                ["https://s.com/post-sitemap2.xml", "https://s.com/post-sitemap10.xml"]
              else if t = "SM" then
                ["https://s.com/a/first-post", "https://s.com/a/my-latest-post"]
              else [])
    "https://s.com/sitemap_index.xml" "IDX" "SM"
    (2, "https://s.com/post-sitemap2.xml") [(10, "https://s.com/post-sitemap10.xml")]
    rfl (by decide) (by decide) (by decide) (by decide)
  refine ⟨?_, h.2.2 (2, "https://s.com/post-sitemap2.xml") (by simp)⟩
  rw [h.1]
  rfl

end AutoBlog
